import Mathlib

/-!
Verification development for the Kram Pattern generation service.

The definitions below are a shallow embedding of the TypeScript source:
pure helpers become Lean functions, the external OpenAI calls become
oracles (a function from the attempt number to the outcome of that call),
database writes become explicit state passing over an in-memory database
value, and thrown exceptions become `Except` results.  Timing fields
(`Date.now()` based durations) are omitted, since no property depends on
them.
-/

namespace KramSpec

/-! ## JavaScript style string helpers -/

/-- Boolean test that `pat` is a literal list-level head pattern of `l`
(`String.startsWith` at the character list level). -/
def isPrefixL : List Char → List Char → Bool
  | [], _ => true
  | _ :: _, [] => false
  | p :: ps, c :: cs => (p == c) && isPrefixL ps cs

/-- Does `pat` occur as a contiguous substring of `l`?  Mirrors the
JavaScript `String.prototype.includes` used for error-message sniffing. -/
def occursL (pat : List Char) : List Char → Bool
  | [] => isPrefixL pat []
  | c :: rest => isPrefixL pat (c :: rest) || occursL pat rest

/-- `containsSub s pat` models `s.includes(pat)` from JavaScript. -/
def containsSub (s pat : String) : Bool := occursL pat.data s.data

/-- The whitespace characters relevant to `String.prototype.trim` and the
`\s` regex class (ASCII part). -/
def jsWhitespaceChar (c : Char) : Bool :=
  [' ', '\t', '\n', '\r', '\x0b', '\x0c'].contains c

/-- `s.trim()` from JavaScript, at the character-list level so that it
evaluates inside the kernel. -/
def jsTrim (s : String) : String :=
  ⟨(((s.data.dropWhile jsWhitespaceChar).reverse).dropWhile jsWhitespaceChar).reverse⟩

/-! ## Bounded retry helper (`withRetry` in `open-ai.ts`) -/

/-- `RateLimitConfig` from the source. -/
structure RateLimitConfig where
  maxRetries : Nat
  baseDelay : Nat
  maxDelay : Nat
deriving DecidableEq, Repr

/-- `DEFAULT_RATE_LIMIT_CONFIG`: 3 retries, 1 second base delay, 8 second cap. -/
def DEFAULT_RATE_LIMIT_CONFIG : RateLimitConfig := ⟨3, 1000, 8000⟩

/-- The two error classes `withRetry` refuses to retry, recognized by
substring match on the error message. -/
def nonRetryableMsg (m : String) : Bool :=
  containsSub m "content_policy_violation" || containsSub m "invalid_request"

/-- `Math.min(baseDelay * Math.pow(2, attempt), maxDelay)`. -/
def backoffDelay (cfg : RateLimitConfig) (attempt : Nat) : Nat :=
  min (cfg.baseDelay * 2 ^ attempt) cfg.maxDelay

/-- Observable outcome of a `withRetry` run: the final result, how many
times the operation was invoked, and the sleep durations (in ms) between
invocations. -/
structure RetryTrace (α : Type) where
  result : Except String α
  calls : Nat
  delays : List Nat
deriving Repr

/-- The loop body of `withRetry`.  `attempt` is the current attempt index
and `fuel` is `maxRetries - attempt`; `fuel = 0` corresponds to the
`attempt === config.maxRetries` break that rethrows the last error.
The operation is modelled as a map from the attempt index to the outcome
of that particular invocation. -/
def withRetryGo {α : Type} (op : Nat → Except String α) (cfg : RateLimitConfig) :
    Nat → Nat → RetryTrace α
  | attempt, fuel =>
    match op attempt with
    | Except.ok v => ⟨Except.ok v, 1, []⟩
    | Except.error msg =>
      if nonRetryableMsg msg then ⟨Except.error msg, 1, []⟩
      else
        match fuel with
        | 0 => ⟨Except.error msg, 1, []⟩
        | fuel' + 1 =>
          let rest := withRetryGo op cfg (attempt + 1) fuel'
          ⟨rest.result, rest.calls + 1, backoffDelay cfg attempt :: rest.delays⟩

/-- `withRetry` from `open-ai.ts` (the source always calls it with the
default configuration, which is a default parameter there). -/
def withRetry {α : Type} (op : Nat → Except String α) (cfg : RateLimitConfig) :
    RetryTrace α :=
  withRetryGo op cfg 0 cfg.maxRetries

/-- C2: with the default configuration, a run where every invocation fails
with a non-retryable message (containing `content_policy_violation` or
`invalid_request`) invokes the operation exactly once and surfaces that
error; a run where every invocation fails with a retryable message invokes
it exactly 4 times with sleeps of 1000, 2000 and 4000 ms and surfaces the
last error; and if the first success happens within the attempt budget its
result is returned. -/
theorem C2_withRetry_default_behavior {α : Type} (op : Nat → Except String α) :
    ((∀ n, ∃ m, op n = Except.error m ∧ nonRetryableMsg m = true) →
      ∃ m, op 0 = Except.error m ∧
        withRetry op DEFAULT_RATE_LIMIT_CONFIG = ⟨Except.error m, 1, []⟩) ∧
    ((∀ n, ∃ m, op n = Except.error m ∧ nonRetryableMsg m = false) →
      ∃ m, op 3 = Except.error m ∧
        withRetry op DEFAULT_RATE_LIMIT_CONFIG =
          ⟨Except.error m, 4, [1000, 2000, 4000]⟩) ∧
    (∀ k v, k ≤ 3 →
      (∀ i, i < k → ∃ m, op i = Except.error m ∧ nonRetryableMsg m = false) →
      op k = Except.ok v →
      (withRetry op DEFAULT_RATE_LIMIT_CONFIG).result = Except.ok v) := by
  refine ⟨?_, ?_, ?_⟩
  · intro h
    obtain ⟨m0, hm0, hnr⟩ := h 0
    exact ⟨m0, hm0, by simp [withRetry, withRetryGo, DEFAULT_RATE_LIMIT_CONFIG, hm0, hnr]⟩
  · intro h
    obtain ⟨m0, hm0, h0⟩ := h 0
    obtain ⟨m1, hm1, h1⟩ := h 1
    obtain ⟨m2, hm2, h2⟩ := h 2
    obtain ⟨m3, hm3, h3⟩ := h 3
    refine ⟨m3, hm3, ?_⟩
    simp [withRetry, withRetryGo, DEFAULT_RATE_LIMIT_CONFIG, hm0, h0, hm1, h1,
      hm2, h2, hm3, h3, backoffDelay]
  · intro k v hk h hsucc
    interval_cases k
    · simp [withRetry, withRetryGo, DEFAULT_RATE_LIMIT_CONFIG, hsucc]
    · obtain ⟨m0, hm0, h0⟩ := h 0 (by omega)
      simp [withRetry, withRetryGo, DEFAULT_RATE_LIMIT_CONFIG, hm0, h0, hsucc]
    · obtain ⟨m0, hm0, h0⟩ := h 0 (by omega)
      obtain ⟨m1, hm1, h1⟩ := h 1 (by omega)
      simp [withRetry, withRetryGo, DEFAULT_RATE_LIMIT_CONFIG, hm0, h0, hm1, h1, hsucc]
    · obtain ⟨m0, hm0, h0⟩ := h 0 (by omega)
      obtain ⟨m1, hm1, h1⟩ := h 1 (by omega)
      obtain ⟨m2, hm2, h2⟩ := h 2 (by omega)
      simp [withRetry, withRetryGo, DEFAULT_RATE_LIMIT_CONFIG, hm0, h0, hm1, h1,
        hm2, h2, hsucc]

/-- Witness for C2 at concrete operations: a content-policy error is
surfaced after one invocation, a transient error after four invocations
with doubling delays, and a success on the third attempt is returned. -/
theorem C2_withRetry_default_behavior_witness :
    withRetry (fun _ => (Except.error "boom content_policy_violation" : Except String Nat))
        DEFAULT_RATE_LIMIT_CONFIG =
      ⟨Except.error "boom content_policy_violation", 1, []⟩ ∧
    withRetry (fun _ => (Except.error "timeout" : Except String Nat))
        DEFAULT_RATE_LIMIT_CONFIG =
      ⟨Except.error "timeout", 4, [1000, 2000, 4000]⟩ ∧
    (withRetry (fun n => if n = 2 then Except.ok 42 else Except.error "timeout")
        DEFAULT_RATE_LIMIT_CONFIG).result = Except.ok 42 := by
  refine ⟨?_, ?_, ?_⟩
  · obtain ⟨m, hm, hr⟩ :=
      (C2_withRetry_default_behavior
        (fun _ => (Except.error "boom content_policy_violation" : Except String Nat))).1
        (fun _ => ⟨"boom content_policy_violation", rfl, by decide⟩)
    cases hm
    exact hr
  · obtain ⟨m, hm, hr⟩ :=
      (C2_withRetry_default_behavior
        (fun _ => (Except.error "timeout" : Except String Nat))).2.1
        (fun _ => ⟨"timeout", rfl, by decide⟩)
    cases hm
    exact hr
  · exact (C2_withRetry_default_behavior
      (fun n => if n = 2 then Except.ok 42 else Except.error "timeout")).2.2
      2 42 (by omega)
      (fun i hi => ⟨"timeout", by interval_cases i <;> rfl, by decide⟩)
      rfl

/-! ## Request validation (`validateKramRequest` in `kram-pattern.ts`) -/

/-- A tag as fetched from the database and passed to the generation
service (the `tags` entries of `KramPatternRequest` in `kram-pattern.ts`). -/
structure TagFull where
  id : String
  name : String
  description : String
  image_url : String
deriving DecidableEq, Repr

/-- `dalle_options`; every field is optional in the source. -/
structure DalleOptions where
  size : Option String
  quality : Option String
  style : Option String
deriving DecidableEq, Repr

/-- `chat_options`; `max_tokens` is a JavaScript number, modelled as `Int`. -/
structure ChatOptions where
  model : Option String
  max_tokens : Option Int
deriving DecidableEq, Repr

/-- The request given to `generateKramPattern` and to the validator. -/
structure KramServiceRequest where
  prompt : String
  tags : Option (List TagFull)
  dalle_options : Option DalleOptions
  chat_options : Option ChatOptions
deriving DecidableEq, Repr

/-- `{ valid: boolean; errors: string[] }`. -/
structure ValidationResult where
  valid : Bool
  errors : List String
deriving DecidableEq, Repr

def isHexDigitCI (c : Char) : Bool :=
  (('0' ≤ c) && (c ≤ '9')) || (('a' ≤ c) && (c ≤ 'f')) || (('A' ≤ c) && (c ≤ 'F'))

/-- The UUID shape regex used throughout the repository:
`^[0-9a-f]{8}-[0-9a-f]{4}-[1-5][0-9a-f]{3}-[89ab][0-9a-f]{3}-[0-9a-f]{12}$`
with the case-insensitive flag. -/
def isUuidShape (s : String) : Bool :=
  let cs := s.data
  (cs.length == 36) &&
  (cs.take 8).all isHexDigitCI && (cs.get? 8 == some '-') &&
  ((cs.drop 9).take 4).all isHexDigitCI && (cs.get? 13 == some '-') &&
  ((cs.get? 14).any fun c => ('1' ≤ c) && (c ≤ '5')) &&
  ((cs.drop 15).take 3).all isHexDigitCI && (cs.get? 18 == some '-') &&
  ((cs.get? 19).any fun c => ['8', '9', 'a', 'b', 'A', 'B'].contains c) &&
  ((cs.drop 20).take 3).all isHexDigitCI && (cs.get? 23 == some '-') &&
  (cs.drop 24).all isHexDigitCI

/-- `validateKramRequest` from `kram-pattern.ts`.  Error strings are
accumulated in source order; `valid` is `errors.length === 0`.  JavaScript
truthiness guards are kept: an empty-string option or a zero `max_tokens`
skips its range check. -/
def validateKramRequest (request : KramServiceRequest) : ValidationResult :=
  let promptErrs :=
    if request.prompt = "" ∨ (jsTrim request.prompt).length = 0 then
      ["Prompt cannot be empty"]
    else if request.prompt.length > 900 then
      ["Prompt too long (max 900 characters)"]
    else []
  let tagErrs :=
    match request.tags with
    | none => []
    | some tags =>
      (if tags.length > 10 then ["Too many tags (max 10 allowed)"] else []) ++
      (if (tags.filter fun t => !(isUuidShape t.id)).length > 0 then
        ["Invalid tag ID format"] else []) ++
      (let missing := tags.filter fun t => t.image_url = "" ∨ jsTrim t.image_url = ""
       if missing.length > 0 then
         ["Tags missing image URLs: " ++ String.intercalate ", " (missing.map TagFull.name)]
       else [])
  let dalleErrs :=
    match request.dalle_options with
    | none => []
    | some o =>
      (match o.size with
       | some s =>
         if s ≠ "" ∧ ¬ (["1024x1024", "1792x1024", "1024x1792"].contains s = true) then
           ["Invalid image size"] else []
       | none => []) ++
      (match o.quality with
       | some q =>
         if q ≠ "" ∧ ¬ (["standard", "hd"].contains q = true) then
           ["Invalid image quality"] else []
       | none => []) ++
      (match o.style with
       | some st =>
         if st ≠ "" ∧ ¬ (["vivid", "natural"].contains st = true) then
           ["Invalid image style"] else []
       | none => [])
  let chatErrs :=
    match request.chat_options with
    | none => []
    | some o =>
      (match o.model with
       | some m =>
         if m ≠ "" ∧ ¬ (["gpt-4", "gpt-4-turbo", "gpt-3.5-turbo"].contains m = true) then
           ["Invalid chat model"] else []
       | none => []) ++
      (match o.max_tokens with
       | some t =>
         if t ≠ 0 ∧ (t < 50 ∨ 2000 < t) then
           ["Invalid max_tokens (must be between 50 and 2000)"] else []
       | none => [])
  let errors := promptErrs ++ tagErrs ++ dalleErrs ++ chatErrs
  ⟨errors.isEmpty, errors⟩

/-- C4 counterexample: a request whose `chat_options.max_tokens` is `0`
(outside `[50, 2000]`) is reported valid with an empty error list, because
the guard `if (max_tokens && ...)` treats the falsy value `0` as absent.
The claim requires `valid = false` with a max_tokens violation for every
out-of-range value. -/
theorem C4_counterexample :
    (0 : Int) < 50 ∧
    validateKramRequest ⟨"hello", none, none, some ⟨none, some 0⟩⟩ =
      ⟨true, []⟩ := by
  constructor
  · decide
  · rfl

/-- C4 amended: for every request whose `chat_options` carry a nonzero
`max_tokens` outside `[50, 2000]`, the validator reports `valid = false`
and its error list contains the max_tokens violation; and in general
`valid = true` exactly when the accumulated error list is empty.
(The original claim fails only for the falsy value `0`.) -/
theorem C4_max_tokens_validation (req : KramServiceRequest) (mt : Int) :
    (req.chat_options.bind ChatOptions.max_tokens = some mt → mt ≠ 0 →
      (mt < 50 ∨ 2000 < mt) →
      (validateKramRequest req).valid = false ∧
      "Invalid max_tokens (must be between 50 and 2000)" ∈
        (validateKramRequest req).errors) ∧
    ((validateKramRequest req).valid = true ↔ (validateKramRequest req).errors = []) := by
  constructor
  · intro hmt hne hout
    match hco : req.chat_options with
    | none => rw [hco] at hmt; simp at hmt
    | some o =>
      rw [hco] at hmt
      replace hmt : o.max_tokens = some mt := hmt
      have hmem : "Invalid max_tokens (must be between 50 and 2000)" ∈
          (validateKramRequest req).errors := by
        simp only [validateKramRequest, hco, hmt, List.mem_append]
        right
        rw [if_pos ⟨hne, hout⟩]
        right
        simp
      refine ⟨?_, hmem⟩
      have : (validateKramRequest req).errors ≠ [] := List.ne_nil_of_mem hmem
      simp only [validateKramRequest] at this ⊢
      simpa using this
  · simp only [validateKramRequest]
    simp [List.isEmpty_iff]

/-- Witness for C4 at a concrete request: `max_tokens = 5000` is rejected
with the max_tokens violation in the error list. -/
theorem C4_max_tokens_validation_witness :
    (validateKramRequest ⟨"hello", none, none, some ⟨none, some 5000⟩⟩).valid = false ∧
    "Invalid max_tokens (must be between 50 and 2000)" ∈
      (validateKramRequest ⟨"hello", none, none, some ⟨none, some 5000⟩⟩).errors :=
  (C4_max_tokens_validation ⟨"hello", none, none, some ⟨none, some 5000⟩⟩ 5000).1
    rfl (by decide) (by decide)

/-! ## Prompt builder (`buildEnhancedPrompt` in `image.ts`) -/

/-- `String.prototype.replace` with a plain string pattern: replace the
first occurrence only, scanning left to right. -/
def replaceFirstL (pat repl : List Char) : List Char → List Char
  | [] => []
  | c :: rest =>
    if isPrefixL pat (c :: rest) then repl ++ rest.drop (pat.length - 1)
    else c :: replaceFirstL pat repl rest

/-- Fuel-indexed scanner for the global replace; the fuel is an upper
bound on the remaining input length, so the out-of-fuel row is never hit
when called through `replaceAllL`.  Structural recursion on the fuel keeps
the function computable inside the kernel. -/
def replaceAllGo (pat repl : List Char) : Nat → List Char → List Char
  | _, [] => []
  | 0, l => l
  | fuel + 1, c :: rest =>
    if isPrefixL pat (c :: rest) then
      repl ++ replaceAllGo pat repl fuel (rest.drop (pat.length - 1))
    else c :: replaceAllGo pat repl fuel rest

/-- `String.prototype.replace` with a global regex made of literal
characters: replace every occurrence, continuing the scan after each
replacement (the replacement text is not rescanned). -/
def replaceAllL (pat repl : List Char) (s : List Char) : List Char :=
  replaceAllGo pat repl s.length s

def jsReplaceFirst (s pat repl : String) : String :=
  ⟨replaceFirstL pat.data repl.data s.data⟩

def jsReplaceAll (s pat repl : String) : String :=
  ⟨replaceAllL pat.data repl.data s.data⟩

/-- `KRAM_PROMPT_TEMPLATE` from `image.ts`, verbatim. -/
def KRAM_PROMPT_TEMPLATE : String := "A flat 2D pattern inspired by traditional Thai indigo textile (ผ้าครามพื้นเมือง), shown in the style of counted-thread embroidery or cross-stitch chart. The design should consist of repeating geometric folk motifs such as diamonds, chevrons, stars, and small ornamental crosses. The layout must be symmetrical, pixel-perfect, and arranged on a precise square grid. The appearance should be flat, digital, and sharp-edged, resembling a cross-stitch embroidery guide rather than real fabric texture.\n\nUse a limited color palette of deep indigo blue (คราม) and white background for contrast. Avoid gradients, shadows, folds, or realistic cloth rendering. Focus only on the geometric motif structure.\n\nThe embroidery pattern {user_prompt}\n\n{tag_context}\n\nTechnical requirements:\n- Pixel grid cross-stitch style\n- Traditional indigo folk motifs (ผ้าคราม style)\n- Symmetrical, repeating geometric layout\n- Limited solid colors: deep indigo, white\n- Sharp, clean edges with no blurring or shading\n- Flat 2D pattern chart (not realistic fabric)\n- {style_guidance}"

/-- Template text up to the `{user_prompt}` placeholder. -/
def KRAM_SEG_A : String := "A flat 2D pattern inspired by traditional Thai indigo textile (ผ้าครามพื้นเมือง), shown in the style of counted-thread embroidery or cross-stitch chart. The design should consist of repeating geometric folk motifs such as diamonds, chevrons, stars, and small ornamental crosses. The layout must be symmetrical, pixel-perfect, and arranged on a precise square grid. The appearance should be flat, digital, and sharp-edged, resembling a cross-stitch embroidery guide rather than real fabric texture.\n\nUse a limited color palette of deep indigo blue (คราม) and white background for contrast. Avoid gradients, shadows, folds, or realistic cloth rendering. Focus only on the geometric motif structure.\n\nThe embroidery pattern "

/-- Template text between `{user_prompt}` and `{tag_context}`. -/
def KRAM_SEG_B : String := "\n\n"

/-- Template text between `{tag_context}` and `{style_guidance}`. -/
def KRAM_SEG_C : String := "\n\nTechnical requirements:\n- Pixel grid cross-stitch style\n- Traditional indigo folk motifs (ผ้าคราม style)\n- Symmetrical, repeating geometric layout\n- Limited solid colors: deep indigo, white\n- Sharp, clean edges with no blurring or shading\n- Flat 2D pattern chart (not realistic fabric)\n- "

/-- The style flag of the image options. -/
inductive DalleStyle
  | vivid
  | natural
deriving DecidableEq, Repr

/-- `STYLE_GUIDANCE` record from `image.ts`. -/
def STYLE_GUIDANCE : DalleStyle → String
  | DalleStyle.vivid => "Bold color contrast with sharp geometric definition, vibrant reds and deep blues creating striking diamond and chevron patterns"
  | DalleStyle.natural => "Subtle color variations with traditional folk art styling, authentic handwoven texture with slight irregularities that add character"

/-- A `{name, description}` tag context entry. -/
structure TagCtx where
  name : String
  description : String
deriving DecidableEq, Repr

/-- `Array.prototype.join(sep)`. -/
def joinWith (sep : String) : List String → String
  | [] => ""
  | [s] => s
  | s :: rest => s ++ sep ++ joinWith sep rest

/-- The tag context block built by `buildEnhancedPrompt`; empty when the
tag list is empty. -/
def tagContextBlock (tags : List TagCtx) : String :=
  if tags.length > 0 then
    "\nTraditional pattern inspiration and geometric techniques:\n" ++
      joinWith "\n" (tags.map fun t =>
        "- " ++ t.name ++ ": " ++ t.description ++
          " (adapted for geometric handwoven textile patterns)") ++ "\n"
  else ""

/-- `buildEnhancedPrompt` from `image.ts`: global replace of
`{user_prompt}`, then first-occurrence replaces of `{tag_context}` and
`{style_guidance}`, in that order. -/
def buildEnhancedPrompt (userPrompt : String) (tags : List TagCtx) (style : DalleStyle) : String :=
  jsReplaceFirst
    (jsReplaceFirst
      (jsReplaceAll KRAM_PROMPT_TEMPLATE "{user_prompt}" userPrompt)
      "{tag_context}" (tagContextBlock tags))
    "{style_guidance}" (STYLE_GUIDANCE style)

/-- Modelled from the claim wording: the fixed template with the
`{user_prompt}`, `{tag_context}` and `{style_guidance}` placeholder
positions simultaneously replaced by the user prompt, the tag block and
the style guidance. -/
def claimedTemplateBuild (userPrompt : String) (tags : List TagCtx) (style : DalleStyle) : String :=
  KRAM_SEG_A ++ userPrompt ++ KRAM_SEG_B ++ tagContextBlock tags ++
    KRAM_SEG_C ++ STYLE_GUIDANCE style

lemma data_append (a b : String) : (a ++ b).data = a.data ++ b.data := rfl

lemma isPrefixL_append_self (p l : List Char) : isPrefixL p (p ++ l) = true := by
  induction p with
  | nil => rfl
  | cons c p ih => simp [isPrefixL, ih]

lemma replaceFirstL_cons_nomatch (pat repl : List Char) (c : Char) (l : List Char)
    (h : isPrefixL pat (c :: l) = false) :
    replaceFirstL pat repl (c :: l) = c :: replaceFirstL pat repl l := by
  simp only [replaceFirstL]
  split
  · rename_i hx
    rw [h] at hx
    cases hx
  · rfl

lemma replaceFirstL_cons_match (pat repl : List Char) (c : Char) (l : List Char)
    (h : isPrefixL pat (c :: l) = true) :
    replaceFirstL pat repl (c :: l) = repl ++ l.drop (pat.length - 1) := by
  simp only [replaceFirstL]
  split
  · rfl
  · rename_i hx
    exact absurd h hx

lemma isPrefixL_brace_cons_false (ps : List Char) (c : Char) (l : List Char)
    (hc : c ≠ '{') : isPrefixL ('{' :: ps) (c :: l) = false := by
  have : ('{' == c) = false := beq_eq_false_iff_ne.mpr fun h => hc h.symm
  simp [isPrefixL, this]

lemma replaceFirstL_append_nobrace (pat repl : List Char) (hpat : pat.head? = some '{') :
    ∀ a rest : List Char, '{' ∉ a →
      replaceFirstL pat repl (a ++ rest) = a ++ replaceFirstL pat repl rest := by
  obtain ⟨p, ps, rfl⟩ : ∃ p ps, pat = p :: ps := by
    cases pat with
    | nil => simp at hpat
    | cons p ps => exact ⟨p, ps, rfl⟩
  have hp : p = '{' := by simpa using hpat
  subst hp
  intro a
  induction a with
  | nil => intro rest _; rfl
  | cons c a ih =>
    intro rest ha
    rw [List.mem_cons, not_or] at ha
    obtain ⟨hc, ha'⟩ := ha
    rw [List.cons_append,
      replaceFirstL_cons_nomatch _ _ _ _ (isPrefixL_brace_cons_false ps c _ fun h => hc h.symm),
      ih rest ha']
    rfl

lemma replaceFirstL_head_match (pat repl rest : List Char) (hne : pat ≠ []) :
    replaceFirstL pat repl (pat ++ rest) = repl ++ rest := by
  obtain ⟨p, ps, rfl⟩ : ∃ p ps, pat = p :: ps := by
    cases pat with
    | nil => exact absurd rfl hne
    | cons p ps => exact ⟨p, ps, rfl⟩
  have hp := isPrefixL_append_self (p :: ps) rest
  rw [List.cons_append] at hp
  rw [List.cons_append, replaceFirstL_cons_match _ _ _ _ hp]
  simp [List.drop_left]

lemma replaceAllGo_fuel (pat repl : List Char) :
    ∀ fuel s, List.length s ≤ fuel →
      replaceAllGo pat repl fuel s = replaceAllL pat repl s := by
  intro fuel
  induction fuel using Nat.strong_induction_on with
  | _ fuel ih =>
    intro s hs
    match fuel, s with
    | f, [] =>
      cases f <;> rfl
    | fuel + 1, c :: rest =>
      show (if isPrefixL pat (c :: rest) = true then
          repl ++ replaceAllGo pat repl fuel (rest.drop (pat.length - 1))
        else c :: replaceAllGo pat repl fuel rest) = replaceAllL pat repl (c :: rest)
      have hlen : List.length rest ≤ fuel := by
        simp only [List.length_cons] at hs; omega
      have hrhs : replaceAllL pat repl (c :: rest) =
          (if isPrefixL pat (c :: rest) = true then
            repl ++ replaceAllGo pat repl rest.length (rest.drop (pat.length - 1))
          else c :: replaceAllGo pat repl rest.length rest) := by
        rfl
      rw [hrhs]
      split
      · have hd : List.length (rest.drop (pat.length - 1)) ≤ rest.length := by
          simp [List.length_drop]
        rw [ih fuel (by omega) _ (le_trans hd hlen),
          ih rest.length (by omega) _ hd]
      · rw [ih fuel (by omega) _ hlen, ih rest.length (by omega) _ le_rfl]

lemma replaceAllL_cons_nomatch (pat repl : List Char) (c : Char) (l : List Char)
    (h : isPrefixL pat (c :: l) = false) :
    replaceAllL pat repl (c :: l) = c :: replaceAllL pat repl l := by
  show (if isPrefixL pat (c :: l) = true then
      repl ++ replaceAllGo pat repl l.length (l.drop (pat.length - 1))
    else c :: replaceAllGo pat repl l.length l) = c :: replaceAllL pat repl l
  rw [h]
  simp only [Bool.false_eq_true, if_false, List.cons.injEq, true_and]
  exact replaceAllGo_fuel pat repl l.length l le_rfl

lemma replaceAllL_cons_match (pat repl : List Char) (c : Char) (l : List Char)
    (h : isPrefixL pat (c :: l) = true) :
    replaceAllL pat repl (c :: l) = repl ++ replaceAllL pat repl (l.drop (pat.length - 1)) := by
  show (if isPrefixL pat (c :: l) = true then
      repl ++ replaceAllGo pat repl l.length (l.drop (pat.length - 1))
    else c :: replaceAllGo pat repl l.length l) = _
  rw [h]
  simp only [if_true, List.append_cancel_left_eq]
  exact replaceAllGo_fuel pat repl l.length _ (by simp [List.length_drop])

lemma replaceAllL_append_nobrace (pat repl : List Char) (hpat : pat.head? = some '{') :
    ∀ a rest : List Char, '{' ∉ a →
      replaceAllL pat repl (a ++ rest) = a ++ replaceAllL pat repl rest := by
  obtain ⟨p, ps, rfl⟩ : ∃ p ps, pat = p :: ps := by
    cases pat with
    | nil => simp at hpat
    | cons p ps => exact ⟨p, ps, rfl⟩
  have hp : p = '{' := by simpa using hpat
  subst hp
  intro a
  induction a with
  | nil => intro rest _; rfl
  | cons c a ih =>
    intro rest ha
    rw [List.mem_cons, not_or] at ha
    obtain ⟨hc, ha'⟩ := ha
    rw [List.cons_append,
      replaceAllL_cons_nomatch _ _ _ _ (isPrefixL_brace_cons_false ps c _ fun h => hc h.symm),
      ih rest ha']
    rfl

lemma replaceAllL_head_match (pat repl rest : List Char) (hne : pat ≠ []) :
    replaceAllL pat repl (pat ++ rest) = repl ++ replaceAllL pat repl rest := by
  obtain ⟨p, ps, rfl⟩ : ∃ p ps, pat = p :: ps := by
    cases pat with
    | nil => exact absurd rfl hne
    | cons p ps => exact ⟨p, ps, rfl⟩
  have hp := isPrefixL_append_self (p :: ps) rest
  rw [List.cons_append] at hp
  rw [List.cons_append, replaceAllL_cons_match _ _ _ _ hp]
  simp [List.drop_left]

lemma replaceAllL_eq_self (pat repl : List Char) :
    ∀ s : List Char, occursL pat s = false → replaceAllL pat repl s = s := by
  intro s
  induction s with
  | nil => intro _; rfl
  | cons c rest ih =>
    intro h
    rw [occursL, Bool.or_eq_false_iff] at h
    obtain ⟨h1, h2⟩ := h
    rw [replaceAllL_cons_nomatch _ _ _ _ h1, ih h2]

lemma joinWith_nl_nobrace :
    ∀ l : List String, (∀ s ∈ l, '{' ∉ s.data) → '{' ∉ (joinWith "\n" l).data := by
  intro l
  induction l with
  | nil => intro _; simp [joinWith]
  | cons s rest ih =>
    intro h
    match rest with
    | [] => exact h s (by simp)
    | t :: r =>
      show '{' ∉ (s ++ "\n" ++ joinWith "\n" (t :: r)).data
      simp only [data_append, List.mem_append, not_or]
      refine ⟨⟨h s (by simp), by decide⟩, ?_⟩
      exact ih fun x hx => h x (List.mem_cons_of_mem _ hx)

lemma tagContextBlock_nobrace (tags : List TagCtx)
    (h : ∀ t ∈ tags, '{' ∉ t.name.data ∧ '{' ∉ t.description.data) :
    '{' ∉ (tagContextBlock tags).data := by
  unfold tagContextBlock
  split
  · simp only [data_append, List.mem_append, not_or]
    refine ⟨⟨by decide, ?_⟩, by decide⟩
    apply joinWith_nl_nobrace
    intro s hs
    simp only [List.mem_map] at hs
    obtain ⟨t, ht, rfl⟩ := hs
    simp only [data_append, List.mem_append, not_or]
    obtain ⟨hn, hd⟩ := h t ht
    exact ⟨⟨⟨⟨by decide, hn⟩, by decide⟩, hd⟩, by decide⟩
  · simp

set_option maxRecDepth 100000 in
/-- C9 counterexample: on the user prompt `{tag_context}` the sequential
replaces of the source interact (the text injected by the user prompt is
consumed by the next replace and the template placeholder survives), so
the output is not the template with its placeholder positions replaced. -/
theorem C9_counterexample :
    buildEnhancedPrompt "{tag_context}" [] DalleStyle.vivid ≠
      claimedTemplateBuild "{tag_context}" [] DalleStyle.vivid := by
  decide

set_option maxRecDepth 100000 in
/-- C9 amended: for every user prompt and tag list that do not contain the
character `{` (so no placeholder token can be injected), the builder
returns exactly the fixed template with `{user_prompt}` replaced by the
user prompt, `{tag_context}` replaced by the block derived from the tag
list (which is empty for an empty list), and `{style_guidance}` replaced
by the fixed guidance for the style; it is a pure function of its
arguments. -/
theorem C9_template_substitution (up : String) (tags : List TagCtx) (style : DalleStyle)
    (hup : '{' ∉ up.data)
    (htags : ∀ t ∈ tags, '{' ∉ t.name.data ∧ '{' ∉ t.description.data) :
    buildEnhancedPrompt up tags style = claimedTemplateBuild up tags style ∧
    tagContextBlock [] = "" := by
  refine ⟨?_, rfl⟩
  have hA : '{' ∉ KRAM_SEG_A.data := by decide
  have hB : '{' ∉ KRAM_SEG_B.data := by decide
  have hC : '{' ∉ KRAM_SEG_C.data := by decide
  have htc : '{' ∉ (tagContextBlock tags).data := tagContextBlock_nobrace tags htags
  have hheadU : ("{user_prompt}".data).head? = some '{' := by decide
  have hheadT : ("{tag_context}".data).head? = some '{' := by decide
  have hheadS : ("{style_guidance}".data).head? = some '{' := by decide
  have hneU : "{user_prompt}".data ≠ [] := by decide
  have hneT : "{tag_context}".data ≠ [] := by decide
  have hneS : "{style_guidance}".data ≠ [] := by decide
  have e0 : KRAM_PROMPT_TEMPLATE.data =
      KRAM_SEG_A.data ++ ("{user_prompt}".data ++ (KRAM_SEG_B.data ++
        ("{tag_context}".data ++ (KRAM_SEG_C.data ++
          ("{style_guidance}".data ++ ([] : List Char)))))) := by decide
  have hnoU : occursL "{user_prompt}".data
      (KRAM_SEG_B.data ++ ("{tag_context}".data ++ (KRAM_SEG_C.data ++
        ("{style_guidance}".data ++ ([] : List Char))))) = false := by decide
  suffices h :
      replaceFirstL "{style_guidance}".data (STYLE_GUIDANCE style).data
        (replaceFirstL "{tag_context}".data (tagContextBlock tags).data
          (replaceAllL "{user_prompt}".data up.data KRAM_PROMPT_TEMPLATE.data)) =
      ((((KRAM_SEG_A.data ++ up.data) ++ KRAM_SEG_B.data) ++
        (tagContextBlock tags).data ++ KRAM_SEG_C.data) ++
        (STYLE_GUIDANCE style).data) by
    exact congrArg String.mk h
  rw [e0]
  rw [replaceAllL_append_nobrace _ _ hheadU _ _ hA]
  rw [replaceAllL_head_match _ _ _ hneU]
  rw [replaceAllL_eq_self _ _ _ hnoU]
  rw [replaceFirstL_append_nobrace _ _ hheadT _ _ hA]
  rw [replaceFirstL_append_nobrace _ _ hheadT _ _ hup]
  rw [replaceFirstL_append_nobrace _ _ hheadT _ _ hB]
  rw [replaceFirstL_head_match _ _ _ hneT]
  rw [replaceFirstL_append_nobrace _ _ hheadS _ _ hA]
  rw [replaceFirstL_append_nobrace _ _ hheadS _ _ hup]
  rw [replaceFirstL_append_nobrace _ _ hheadS _ _ hB]
  rw [replaceFirstL_append_nobrace _ _ hheadS _ _ htc]
  rw [replaceFirstL_append_nobrace _ _ hheadS _ _ hC]
  rw [replaceFirstL_head_match _ _ _ hneS]
  simp [List.append_assoc]

/-- Witness for C9 at a concrete brace-free input. -/
theorem C9_template_substitution_witness :
    buildEnhancedPrompt "a bird over rice fields" [⟨"Lai Nam Lai", "flowing water motif"⟩]
        DalleStyle.natural =
      claimedTemplateBuild "a bird over rice fields" [⟨"Lai Nam Lai", "flowing water motif"⟩]
        DalleStyle.natural ∧
    tagContextBlock [] = "" :=
  C9_template_substitution "a bird over rice fields"
    [⟨"Lai Nam Lai", "flowing water motif"⟩] DalleStyle.natural
    (by decide) (by decide)

/-! ## Chat helper (`chat.ts`, Thai revision) -/

inductive ChatRole
  | system
  | user
  | assistant
deriving DecidableEq, Repr

/-- A chat message (the pass-through `refusal` field is omitted: it is
never inspected). -/
structure Message where
  role : ChatRole
  content : String
deriving DecidableEq, Repr

/-- `HTTPException` carrying a status code and detail text. -/
structure HTTPErr where
  statusCode : Nat
  detail : String
deriving DecidableEq, Repr

/-- `validateMessage`: empty or over-8000-character content is rejected
(the role check of the source cannot fail for well-typed roles). -/
def validateMessage (m : Message) : Option String :=
  if m.content = "" ∨ (jsTrim m.content).length = 0 then
    some "Message content cannot be empty"
  else if m.content.length > 8000 then
    some "Message content too long (max 8000 characters)"
  else none

/-- Status code chosen by the catch block of `chatHelper`, by substring
sniffing on the error message. -/
def chatStatusFor (m : String) : Nat :=
  if containsSub m "rate_limit_exceeded" then 429
  else if containsSub m "quota_exceeded" then 429
  else if containsSub m "invalid_request_error" then 400
  else if containsSub m "context_length_exceeded" then 400
  else 500

/-- Error text chosen by the catch block of `chatHelper`. -/
def chatErrText (m : String) : String :=
  if containsSub m "rate_limit_exceeded" then
    "Rate limit exceeded. Please wait before making more requests."
  else if containsSub m "quota_exceeded" then
    "API quota exceeded. Please check your OpenAI account usage."
  else if containsSub m "invalid_request_error" then
    "Invalid request. Please check your input parameters."
  else if containsSub m "context_length_exceeded" then
    "Context length exceeded. Please reduce the length of your message or history."
  else m

/-- Resolved options actually sent to the completion call. -/
structure ChatOpts where
  model : String
  maxTokens : Int
deriving DecidableEq, Repr

/-- JavaScript `x || d` for an optional string (empty string is falsy). -/
def jsOrStr (o : Option String) (d : String) : String :=
  match o with
  | none => d
  | some s => if s = "" then d else s

/-- JavaScript `x || d` for an optional number (zero is falsy). -/
def jsOrInt (o : Option Int) (d : Int) : Int :=
  match o with
  | none => d
  | some n => if n = 0 then d else n

/-- `chatHelper`: validate the message, run the completion call through
`withRetry`, fail if no content came back, otherwise return the content.
The external call is an oracle from the attempt number to that attempt
outcome; `Except.ok none` models a completion without usable content. -/
def chatHelper (message : Message) (opts : ChatOpts)
    (api : Nat → Except String (Option String)) : Except HTTPErr String :=
  match validateMessage message with
  | some err => Except.error ⟨400, "Invalid message: " ++ err⟩
  | none =>
    match (withRetry api DEFAULT_RATE_LIMIT_CONFIG).result with
    | Except.error m => Except.error ⟨chatStatusFor m, chatErrText m⟩
    | Except.ok none => Except.error ⟨500, "No content returned from ChatGPT API"⟩
    | Except.ok (some content) =>
      let _ := opts
      Except.ok content

/-- Unresolved options of the specialized generators (`model` and
`maxTokens` both optional, defaulted with `||`). -/
structure GenOpts where
  model : Option String
  maxTokens : Option Int
deriving DecidableEq, Repr

/-- Thai tag context block of `generateImageDescription`. -/
def thaiDescTagContext (tags : List TagCtx) : String :=
  if tags.length > 0 then
    "\n\nบริบทสไตล์จากแท็กที่เลือก:\n" ++
      joinWith "\n" (tags.map fun t => "- " ++ t.name ++ ": " ++ t.description)
  else ""

/-- The Thai description prompt of `generateImageDescription`, verbatim. -/
def thaiDescPrompt (originalPrompt : String) (tags : List TagCtx) : String :=
  "วิเคราะห์ภาพที่สร้างขึ้นนี้และสร้างคำอธิบายที่น่าสนใจสำหรับแกลเลอรี่เชิงสร้างสรรค์\n\nพรอมต์ของผู้ใช้เดิม: \"" ++
    originalPrompt ++ "\"\n" ++ thaiDescTagContext tags ++
    "\n\nโปรดให้คำอธิบายที่รวมถึง:\n1. องค์ประกอบทางภาพหลักและการจัดวาง\n2. สี แสง และอารมณ์ทางศิลปะ\n3. สไตล์และเทคนิคที่ใช้\n4. วิธีการตอบสนองเจตนาเชิงสร้างสรรค์เดิม\n5. สิ่งที่ทำให้ภาพนี้มีความโดดเด่นหรือเฉพาะตัว\n\nให้คำอธิบายที่น่าสนใจและกระชับ (3-4 ประโยค) เน้นสิ่งที่ทำให้ภาพนี้พิเศษ\n\n**ตอบเป็นภาษาไทยเท่านั้น และให้คำอธิบายที่สมบูรณ์**"

/-- Thai fallback description returned when the chat call fails. -/
def thaiDescFallback (originalPrompt : String) : String :=
  "ภาพเชิงสร้างสรรค์ที่สร้างจาก: \"" ++ originalPrompt ++ "\""

/-- `generateImageDescription` (Thai revision).  The `imageUrl` parameter
is accepted but, as in the source, never used by the prompt.  The whole
chat call sits in a try/catch whose catch returns the fallback, so the
function can only return `Except.ok`. -/
def generateImageDescription (originalPrompt imageUrl : String) (tags : List TagCtx)
    (options : GenOpts) (api : Nat → Except String (Option String)) :
    Except HTTPErr String :=
  let _ := imageUrl
  let message : Message := ⟨ChatRole.user, thaiDescPrompt originalPrompt tags⟩
  match chatHelper message
      ⟨jsOrStr options.model "gpt-4-turbo", jsOrInt options.maxTokens 500⟩ api with
  | Except.ok content => Except.ok content
  | Except.error _ => Except.ok (thaiDescFallback originalPrompt)

/-- Characters kept by the tag cleanup regex
`[^฀-๿a-zA-Z\s,]` (negated): Thai block, ASCII letters,
whitespace, comma. -/
def thaiKeepChar (c : Char) : Bool :=
  (decide (0xE00 ≤ c.toNat) && decide (c.toNat ≤ 0xE7F)) ||
    c.isAlpha || jsWhitespaceChar c || c = ','

/-- Collapse every whitespace run into a single space
(`replace(/\s+/g, ' ')`), tracking whether the previous character was
whitespace to stay structurally recursive. -/
def collapseWsGo : Bool → List Char → List Char
  | _, [] => []
  | prevWs, c :: rest =>
    if jsWhitespaceChar c then
      if prevWs then collapseWsGo true rest
      else ' ' :: collapseWsGo true rest
    else c :: collapseWsGo false rest

/-- One lookahead step of `replace(/,\s*,/g, ',')`: after a comma, skip
whitespace and check for a second comma, returning the remainder. -/
def wsThenComma (l : List Char) : Option (List Char) :=
  match l.dropWhile jsWhitespaceChar with
  | ',' :: r2 => some r2
  | _ => none

/-- `replace(/,\s*,/g, ',')`, continuing the scan after each match. -/
def squashCommaGo : Nat → List Char → List Char
  | _, [] => []
  | 0, l => l
  | fuel + 1, c :: rest =>
    if c = ',' then
      match wsThenComma rest with
      | some r2 => ',' :: squashCommaGo fuel r2
      | none => c :: squashCommaGo fuel rest
    else c :: squashCommaGo fuel rest

/-- Leading half of `replace(/^\s*,|,\s*$/g, '')`. -/
def stripLeadWsComma (l : List Char) : List Char :=
  match l.dropWhile jsWhitespaceChar with
  | ',' :: r2 => r2
  | _ => l

/-- Trailing half of `replace(/^\s*,|,\s*$/g, '')`. -/
def stripTrailCommaWs (l : List Char) : List Char :=
  match l.reverse.dropWhile jsWhitespaceChar with
  | ',' :: r2 => r2.reverse
  | _ => l

/-- The whole cleanup pipeline of `generateOutputTags` (Thai revision). -/
def cleanupThaiTags (s : String) : String :=
  let kept := s.data.filter thaiKeepChar
  let collapsed := collapseWsGo false kept
  let squashed := squashCommaGo collapsed.length collapsed
  jsTrim ⟨stripTrailCommaWs (stripLeadWsComma squashed)⟩

/-- Thai fallback tag string. -/
def thaiTagFallback : String := "สร้างสรรค์, ศิลปะ, ดิจิทัล, ปัญญาประดิษฐ์"

/-- The Thai tag prompt of `generateOutputTags`, verbatim. -/
def thaiTagsPrompt (originalPrompt description existingTagsContext : String) : String :=
  "สร้างแท็ก 4-6 ตัวที่เกี่ยวข้องสำหรับภาพเชิงสร้างสรรค์นี้ตามพรอมต์และคำอธิบาย\n\nพรอมต์เดิม: \"" ++
    originalPrompt ++ "\"\nคำอธิบายที่สร้าง: \"" ++ description ++ "\"\n" ++
    existingTagsContext ++
    "\n\nสร้างแท็กที่:\n- เกี่ยวข้องกับเนื้อหาทางภาพและสไตล์\n- มีประโยชน์สำหรับการค้นหาและจัดหมวดหมู่\n- กระชับ (1-2 คำในแต่ละแท็ก)\n- หลากหลาย (ครอบคลุมหัวข้อ สไตล์ อารมณ์ เทคนิค)\n- แตกต่างจากแท็กที่มีอยู่หากเป็นไปได้\n\nรูปแบบ: ส่งคืนเฉพาะแท็กที่คั่นด้วยจุลภาคเท่านั้น ไม่ต้องใส่อย่างอื่น\nตัวอย่าง: \"นก, ป่าเขา, ธรรมชาติ, สีเขียว, สงบ, ศิลปะดิจิทัล\"\n\n**ตอบเป็นภาษาไทยเท่านั้น และส่งคืนเฉพาะแท็กที่คั่นด้วยจุลภาค**"

/-- `generateOutputTags` (Thai revision).  `existingTags` holds the names
of the selected style tags.  Failures of the chat call, an empty cleaned
response, or a cleaned response shorter than 3 characters all yield the
fixed fallback; the function can only return `Except.ok`. -/
def generateOutputTags (originalPrompt description : String) (existingTags : List String)
    (options : GenOpts) (api : Nat → Except String (Option String)) :
    Except HTTPErr String :=
  let existingTagNames := joinWith ", " existingTags
  let existingTagsContext :=
    if existingTagNames = "" then "" else "\n\nแท็กสไตล์ที่มีอยู่: " ++ existingTagNames
  let message : Message := ⟨ChatRole.user, thaiTagsPrompt originalPrompt description existingTagsContext⟩
  match chatHelper message
      ⟨jsOrStr options.model "gpt-4-turbo", jsOrInt options.maxTokens 200⟩ api with
  | Except.error _ => Except.ok thaiTagFallback
  | Except.ok content =>
    let cleaned := cleanupThaiTags content
    if cleaned = "" ∨ cleaned.length < 3 then Except.ok thaiTagFallback
    else Except.ok cleaned

/-! ## Image helper (`image.ts`) -/

def isWordChar (c : Char) : Bool := c.isAlphanum || c = '_'

/-- Does lowercase word `w` match case-insensitively at the head of `l`,
returning the remainder on success? -/
def lowerMatch : List Char → List Char → Option (List Char)
  | [], l => some l
  | _ :: _, [] => none
  | wc :: ws, c :: cs => if c.toLower = wc then lowerMatch ws cs else none

/-- `\bw\b` occurrence with the `i` flag: `w` matches somewhere with
non-word characters (or ends) on both sides.  `prev` is the character just
before the current position. -/
def wordBoundaryOccurs (w : List Char) : Option Char → List Char → Bool
  | _, [] => false
  | prev, c :: cs =>
    (match lowerMatch w (c :: cs) with
     | some rest =>
       (match prev with
        | none => true
        | some p => !(isWordChar p)) &&
       (match rest with
        | [] => true
        | r :: _ => !(isWordChar r))
     | none => false) ||
    wordBoundaryOccurs w (some c) cs

def containsWordCI (s w : String) : Bool := wordBoundaryOccurs w.data none s.data

/-- The `problematicPatterns` check of `validatePrompt`. -/
def problematicPrompt (p : String) : Bool :=
  containsWordCI p "nude" || containsWordCI p "naked" || containsWordCI p "nsfw" ||
  containsWordCI p "violence" || containsWordCI p "gore" || containsWordCI p "blood" ||
  containsWordCI p "hate" || containsWordCI p "racist" || containsWordCI p "nazi"

/-- `validatePrompt` from `image.ts`. -/
def validatePrompt (prompt : String) : Option String :=
  if prompt = "" ∨ (jsTrim prompt).length = 0 then
    some "Prompt cannot be empty"
  else if prompt.length > 1000 then
    some "Prompt too long. DALL-E prompts should be under 1000 characters"
  else if problematicPrompt prompt then
    some "Prompt may violate content policy"
  else none

/-- `ImageResult` (timing field omitted). -/
structure ImageResult where
  image_url : String
  revised_prompt : Option String
  original_prompt : String
  enhanced_prompt : String
deriving DecidableEq, Repr

/-- One element of the `data` array of the image API response. -/
structure ImageApiDatum where
  url : Option String
  revised_prompt : Option String
deriving DecidableEq, Repr

/-- Error-message enhancement of the `imageHelper` catch block. -/
def imageErrEnhance (m : String) : String :=
  if containsSub m "content_policy_violation" then
    "Image prompt violates OpenAI content policy. Please modify your prompt and try again."
  else if containsSub m "rate_limit_exceeded" then
    "Rate limit exceeded. Please wait a moment before trying again."
  else if containsSub m "quota_exceeded" then
    "API quota exceeded. Please check your OpenAI account usage."
  else m

/-- `imageHelper`: validate the incoming prompt, wrap it in the Kram
template via `buildEnhancedPrompt`, run the generation call through
`withRetry` and extract the image URL.  `Except.ok none` from the oracle
models a response whose `data` array is empty. -/
def imageHelper (prompt : String) (tags : List TagCtx) (style : DalleStyle)
    (api : Nat → Except String (Option ImageApiDatum)) : Except String ImageResult :=
  match validatePrompt prompt with
  | some err => Except.error ("Invalid prompt: " ++ err)
  | none =>
    let enhancedPrompt := buildEnhancedPrompt prompt tags style
    match (withRetry api DEFAULT_RATE_LIMIT_CONFIG).result with
    | Except.error m => Except.error ("Image generation failed: " ++ imageErrEnhance m)
    | Except.ok none =>
      Except.error ("Image generation failed: " ++
        imageErrEnhance "No image URL returned from DALL-E API")
    | Except.ok (some d) =>
      match d.url with
      | none =>
        Except.error ("Image generation failed: " ++
          imageErrEnhance "No image URL returned from DALL-E API")
      | some url => Except.ok ⟨url, d.revised_prompt, prompt, enhancedPrompt⟩

/-! ## Orchestrator (`generateKramPattern` in `kram-pattern.ts`) -/

/-- The pipeline phases a `KramPatternError` can be tagged with. -/
inductive GenPhase
  | validation
  | image_generation
  | description_generation
  | tag_generation
deriving DecidableEq, Repr

/-- `KramPatternError`: message, code, phase, and the message of the
wrapped original error when present. -/
structure KramPatternError where
  message : String
  code : String
  phase : GenPhase
  originalMsg : Option String
deriving DecidableEq, Repr

/-- The tag record passed to `buildEnhancedPromptWithImages`: name and
image URL only (the source deliberately omits `description`, so the
template interpolates the JavaScript string `undefined` for it). -/
structure ImageRefTag where
  name : String
  description : Option String
  image_url : Option String
deriving DecidableEq, Repr

def undefStr : Option String → String
  | none => "undefined"
  | some s => s

/-- `buildEnhancedPromptWithImages` from `kram-pattern.ts`. -/
def buildEnhancedPromptWithImages (userPrompt : String) (tags : List ImageRefTag) : String :=
  if tags.length = 0 then userPrompt
  else
    let styleContext :=
      joinWith ", " (tags.map fun t => t.name ++ " (" ++ undefStr t.description ++ ")")
    let imageReferences :=
      joinWith "\n" (tags.enum.map fun p =>
        "Reference image " ++ Nat.repr (p.1 + 1) ++ ": " ++ p.2.name ++
          " style from " ++ undefStr p.2.image_url)
    userPrompt ++ "\n\nStyle inspiration from: " ++ styleContext ++
      "\n\nReference images to incorporate stylistic elements from:\n" ++ imageReferences ++
      "\n\nPlease create an image that combines the core concept from the original prompt with visual style elements inspired by the reference images above. Maintain the artistic integrity while incorporating the aesthetic qualities from these style references."

/-- `STYLE_GUIDANCE[style] || STYLE_GUIDANCE.vivid` seen as a conversion
from the request string to the style flag. -/
def styleOf (s : String) : DalleStyle :=
  if s = "natural" then DalleStyle.natural else DalleStyle.vivid

/-- The selected-tag projection returned to the route
(`{id, name, description}`). -/
structure TagOut where
  id : String
  name : String
  description : String
deriving DecidableEq, Repr

/-- `KramPatternResult` (timing fields omitted). -/
structure KramPatternResult where
  image_result : ImageResult
  description : String
  output_tags : String
  selected_tags : List TagOut
deriving DecidableEq, Repr

/-- The three external call oracles of one generation run. -/
structure GenOracle where
  imageApi : Nat → Except String (Option ImageApiDatum)
  descApi : Nat → Except String (Option String)
  tagsApi : Nat → Except String (Option String)

/-- `generateKramPattern`: validate, build the image prompt, generate the
image, the description and the output tags in sequence, wrapping each
failure in a phase-tagged error. -/
def generateKramPattern (request : KramServiceRequest) (oracle : GenOracle) :
    Except KramPatternError KramPatternResult :=
  let validation := validateKramRequest request
  if validation.valid = false then
    Except.error ⟨"Validation failed: " ++ joinWith ", " validation.errors,
      "VALIDATION_ERROR", GenPhase.validation, none⟩
  else
    let selectedTags := request.tags.getD []
    let imageTagContext := selectedTags.map fun t =>
      ImageRefTag.mk t.name none (some t.image_url)
    let textTagContext := selectedTags.map fun t => TagCtx.mk t.name t.description
    let enhancedPrompt := buildEnhancedPromptWithImages request.prompt imageTagContext
    let style := styleOf (jsOrStr (request.dalle_options.bind DalleOptions.style) "vivid")
    match imageHelper enhancedPrompt [] style oracle.imageApi with
    | Except.error m =>
      Except.error ⟨"Failed to generate image", "IMAGE_GENERATION_ERROR",
        GenPhase.image_generation, some m⟩
    | Except.ok imageResult =>
      match generateImageDescription request.prompt imageResult.image_url textTagContext
          ⟨some (jsOrStr (request.chat_options.bind ChatOptions.model) "gpt-4-turbo"),
            some (jsOrInt (request.chat_options.bind ChatOptions.max_tokens) 300)⟩
          oracle.descApi with
      | Except.error e =>
        Except.error ⟨"Failed to generate description", "DESCRIPTION_GENERATION_ERROR",
          GenPhase.description_generation, some e.detail⟩
      | Except.ok description =>
        match generateOutputTags request.prompt description (selectedTags.map TagFull.name)
            ⟨some (jsOrStr (request.chat_options.bind ChatOptions.model) "gpt-4-turbo"),
              some 100⟩
            oracle.tagsApi with
        | Except.error e =>
          Except.error ⟨"Failed to generate tags", "TAG_GENERATION_ERROR",
            GenPhase.tag_generation, some e.detail⟩
        | Except.ok outputTags =>
          Except.ok ⟨imageResult, description, outputTags,
            selectedTags.map fun t => ⟨t.id, t.name, t.description⟩⟩

/-! ## Generation route handler (`POST /api/v1/kram/generate/kram-pattern`) -/

/-- A `history` table row (`create_at` timestamp omitted). -/
structure HistoryRow where
  id : String
  prompt_message : String
  tags_id : Option String
deriving DecidableEq, Repr

/-- An `output_generate` table row. -/
structure OutputRow where
  id : String
  history_id : String
  prompt_image_url : String
  description : String
  output_tags : String
deriving DecidableEq, Repr

/-- The three tables the service touches, as an in-memory database value. -/
structure Db where
  tags : List TagFull
  history : List HistoryRow
  outputs : List OutputRow
deriving DecidableEq, Repr

/-- Outcome model of the two persistence writes plus the generated row
ids (Prisma fills the ids). -/
structure PersistOracle where
  historyOk : Bool
  outputOk : Bool
  newHistoryId : String
  newOutputId : String
deriving DecidableEq, Repr

structure RouteOracle where
  gen : GenOracle
  persist : PersistOracle

/-- The parsed request body of the generation route. -/
structure KramRouteRequest where
  prompt : String
  tag_ids : Option (List String)
  dalle_options : Option DalleOptions
  chat_options : Option ChatOptions
deriving DecidableEq, Repr

/-- What the route run leaves behind: HTTP status, success flag, the
`history_id` of the response when present, the database after the run,
and whether the tag `findMany` query was executed. -/
structure RouteResult where
  status : Nat
  ok : Bool
  historyId : Option String
  db : Db
  tagFetchRan : Bool
deriving DecidableEq, Repr

/-- Status mapping of the route for a `KramPatternError` (the `switch` on
`error.code` plus message sniffing for image errors). -/
def kramErrorStatus (e : KramPatternError) : Nat :=
  if e.code = "VALIDATION_ERROR" then 400
  else if e.code = "IMAGE_GENERATION_ERROR" then
    if (match e.originalMsg with
        | some m => containsSub m "content_policy_violation"
        | none => false) then 400
    else if (match e.originalMsg with
        | some m => containsSub m "rate_limit"
        | none => false) then 429
    else 502
  else if e.code = "DESCRIPTION_GENERATION_ERROR" ∨ e.code = "TAG_GENERATION_ERROR" then 502
  else 500

/-- The generation and persistence tail of the route: call
`generateKramPattern`, then `prisma.history.create` followed by
`prisma.outputGenerate.create` (no transaction around the two writes). -/
def runGeneration (body : KramRouteRequest) (db : Db) (oracle : RouteOracle)
    (selectedTags : List TagFull) (fetched : Bool) : RouteResult :=
  match generateKramPattern
      ⟨body.prompt, some selectedTags, body.dalle_options, body.chat_options⟩ oracle.gen with
  | Except.error e => ⟨kramErrorStatus e, false, none, db, fetched⟩
  | Except.ok kramResult =>
    if oracle.persist.historyOk = false then ⟨500, false, none, db, fetched⟩
    else if oracle.persist.outputOk = false then
      ⟨500, false, none,
        ⟨db.tags,
          db.history ++ [⟨oracle.persist.newHistoryId, body.prompt,
            (selectedTags.head?).map TagFull.id⟩],
          db.outputs⟩, fetched⟩
    else
      ⟨201, true, some oracle.persist.newHistoryId,
        ⟨db.tags,
          db.history ++ [⟨oracle.persist.newHistoryId, body.prompt,
            (selectedTags.head?).map TagFull.id⟩],
          db.outputs ++ [⟨oracle.persist.newOutputId, oracle.persist.newHistoryId,
            kramResult.image_result.image_url, kramResult.description,
            kramResult.output_tags⟩]⟩, fetched⟩

/-- `POST /generate/kram-pattern`: validate the body (with an empty tag
list, as the source does), then validate and fetch the tag ids, then run
generation and persistence.  Client initialization and JSON parsing are
outside the model. -/
def postKramPattern (body : KramRouteRequest) (db : Db) (oracle : RouteOracle) : RouteResult :=
  if (validateKramRequest
      ⟨body.prompt, some [], body.dalle_options, body.chat_options⟩).valid = false then
    ⟨400, false, none, db, false⟩
  else
    match body.tag_ids with
    | some ids =>
      if ids.length > 0 then
        if (ids.filter fun i => !(isUuidShape i)).length > 0 then
          ⟨400, false, none, db, false⟩
        else if (db.tags.filter fun t => ids.contains t.id).length ≠ ids.length then
          ⟨404, false, none, db, true⟩
        else if ((db.tags.filter fun t => ids.contains t.id).filter fun t =>
            t.image_url = "" ∨ jsTrim t.image_url = "").length > 0 then
          ⟨400, false, none, db, true⟩
        else runGeneration body db oracle (db.tags.filter fun t => ids.contains t.id) true
      else runGeneration body db oracle [] false
    | none => runGeneration body db oracle [] false

/-! ## Tag creation route (`POST /api/v1/kram/tags`) -/

/-- The request body of the tag creation route; a missing field models an
absent JSON key. -/
structure CreateTagBody where
  name : Option String
  image_url : Option String
  description : Option String
deriving DecidableEq, Repr

/-- JavaScript falsiness of `body.field` for an optional string. -/
def strFalsy (o : Option String) : Bool :=
  match o with
  | none => true
  | some s => s = ""

/-- ASCII lowercase of a string, modelling both `mode: 'insensitive'`
comparison and write-time normalization. -/
def asciiLower (s : String) : String := ⟨s.data.map Char.toLower⟩

/-- Case-insensitive equality (`equals` with `mode: 'insensitive'`). -/
def lowerEq (a b : String) : Bool := asciiLower a = asciiLower b

structure TagsRouteResult where
  status : Nat
  tags : List TagFull
deriving DecidableEq, Repr

/-- `POST /api/v1/kram/tags`: 400 on any missing (falsy) field, 409 when
a stored tag name equals the submitted name case-insensitively, otherwise
create the tag with trimmed fields. -/
def postTags (db : List TagFull) (body : CreateTagBody) (newId : String) : TagsRouteResult :=
  if strFalsy body.name || strFalsy body.image_url || strFalsy body.description then
    ⟨400, db⟩
  else
    let name := body.name.getD ""
    if db.any fun t => lowerEq t.name name then ⟨409, db⟩
    else
      ⟨201, db ++ [⟨newId, jsTrim name, (body.description.getD "") |> jsTrim,
        (body.image_url.getD "") |> jsTrim⟩]⟩

/-! ## Gallery query layer (`GET /api/v1/kram/gallery`) -/

/-- JavaScript `parseInt` in base 10 on a trimmed string: optional sign,
then leading digits; `none` models `NaN`. -/
def leadingDigits : List Char → Option Nat
  | [] => none
  | c :: rest =>
    if c.isDigit then
      some (rest.takeWhile Char.isDigit |>.foldl
        (fun acc d => acc * 10 + (d.toNat - 48)) (c.toNat - 48))
    else none

def parseIntJs (s : String) : Option Int :=
  match (jsTrim s).data with
  | '-' :: rest => (leadingDigits rest).map fun n => -(n : Int)
  | '+' :: rest => (leadingDigits rest).map fun n => (n : Int)
  | rest => (leadingDigits rest).map fun n => (n : Int)

/-- `searchParams.get(k) || d`: an absent or empty parameter falls back. -/
def paramOr (p : Option String) (d : String) : String :=
  match p with
  | none => d
  | some s => if s = "" then d else s

/-- `Math.max(a, x)` where `x` may be `NaN` (`none`): any `NaN` operand
makes the result `NaN`. -/
def jsMaxNan (a : Int) (x : Option Int) : Option Int := x.map (max a)

/-- `Math.min(a, x)` with the same `NaN` propagation. -/
def jsMinNan (a : Int) (x : Option Int) : Option Int := x.map (min a)

/-- Effective page of the `part_004` gallery revision:
`Math.max(1, parseInt(searchParams.get('page') || '1'))` — no fallback
after `parseInt`, so a non-numeric parameter yields `NaN`. -/
def effectivePage_p4 (page : Option String) : Option Int :=
  jsMaxNan 1 (parseIntJs (paramOr page "1"))

/-- Effective limit of the `part_004` gallery revision. -/
def effectiveLimit_p4 (limit : Option String) : Option Int :=
  jsMinNan 100 (jsMaxNan 1 (parseIntJs (paramOr limit "10")))

/-- JavaScript `x || d` on a parsed number where `x` may be `NaN`:
`NaN` and `0` both fall back to the default. -/
def numOr (x : Option Int) (d : Int) : Int :=
  match x with
  | none => d
  | some n => if n = 0 then d else n

/-- Effective page of the enhanced gallery revision in `route.ts`:
`Math.max(1, parseInt(searchParams.get('page') || '1') || 1)`. -/
def effectivePage_v2 (page : Option String) : Int :=
  max 1 (numOr (parseIntJs (paramOr page "1")) 1)

/-- Effective limit of the enhanced gallery revision:
`Math.min(100, Math.max(1, parseInt(searchParams.get('limit') || '10') || 10))`. -/
def effectiveLimit_v2 (limit : Option String) : Int :=
  min 100 (max 1 (numOr (parseIntJs (paramOr limit "10")) 10))

/-- Pagination metadata block of the gallery response. -/
structure Pagination where
  currentPage : Nat
  totalPages : Nat
  totalItems : Nat
  hasNext : Bool
  hasPrev : Bool
  limit : Nat
deriving DecidableEq, Repr

/-- The page of rows the gallery query returns: `skip = (page-1)*limit`
rows dropped, `take = limit` rows kept, over the filtered and sorted row
list. -/
def galleryPageData {α : Type} (rows : List α) (page limit : Nat) : List α :=
  (rows.drop ((page - 1) * limit)).take limit

/-- The pagination block: `totalPages = Math.ceil(totalItems / limit)`,
`hasNext = page < totalPages`, `hasPrev = page > 1`. -/
def galleryPagination (totalItems page limit : Nat) : Pagination :=
  let totalPages := (totalItems + limit - 1) / limit
  ⟨page, totalPages, totalItems, decide (page < totalPages), decide (1 < page), limit⟩

/-! ## Helper lemmas about the chat helpers -/

lemma withRetryGo_all_error {α : Type} (op : Nat → Except String α) (cfg : RateLimitConfig)
    (h : ∀ n, ∃ m, op n = Except.error m) :
    ∀ fuel attempt, ∃ m, (withRetryGo op cfg attempt fuel).result = Except.error m := by
  intro fuel
  induction fuel with
  | zero =>
    intro attempt
    obtain ⟨m, hm⟩ := h attempt
    refine ⟨m, ?_⟩
    rw [withRetryGo, hm]
    dsimp only
    split <;> rfl
  | succ fuel ih =>
    intro attempt
    obtain ⟨m, hm⟩ := h attempt
    by_cases hnr : nonRetryableMsg m = true
    · exact ⟨m, by rw [withRetryGo, hm]; simp [hnr]⟩
    · obtain ⟨m2, hm2⟩ := ih (attempt + 1)
      refine ⟨m2, ?_⟩
      rw [withRetryGo, hm]
      simp only [hnr, Bool.false_eq_true, if_false]
      exact hm2

lemma chatHelper_all_error (message : Message) (opts : ChatOpts)
    (api : Nat → Except String (Option String))
    (h : ∀ n, ∃ m, api n = Except.error m) :
    ∃ e, chatHelper message opts api = Except.error e := by
  unfold chatHelper
  cases hv : validateMessage message with
  | some err => exact ⟨_, rfl⟩
  | none =>
    obtain ⟨m, hm⟩ := withRetryGo_all_error api DEFAULT_RATE_LIMIT_CONFIG h
      DEFAULT_RATE_LIMIT_CONFIG.maxRetries 0
    unfold withRetry
    rw [hm]
    exact ⟨_, rfl⟩

lemma generateImageDescription_total (p u : String) (tags : List TagCtx) (opts : GenOpts)
    (api : Nat → Except String (Option String)) :
    ∃ s, generateImageDescription p u tags opts api = Except.ok s := by
  unfold generateImageDescription
  dsimp only
  cases h : chatHelper ⟨ChatRole.user, thaiDescPrompt p tags⟩
      ⟨jsOrStr opts.model "gpt-4-turbo", jsOrInt opts.maxTokens 500⟩ api with
  | ok c => exact ⟨c, rfl⟩
  | error e => exact ⟨_, rfl⟩

lemma generateOutputTags_total (p d : String) (ex : List String) (opts : GenOpts)
    (api : Nat → Except String (Option String)) :
    ∃ s, generateOutputTags p d ex opts api = Except.ok s := by
  unfold generateOutputTags
  dsimp only
  cases h : chatHelper
      ⟨ChatRole.user, thaiTagsPrompt p d
        (if joinWith ", " ex = "" then "" else "\n\nแท็กสไตล์ที่มีอยู่: " ++ joinWith ", " ex)⟩
      ⟨jsOrStr opts.model "gpt-4-turbo", jsOrInt opts.maxTokens 200⟩ api with
  | error e => exact ⟨_, rfl⟩
  | ok content =>
    dsimp only
    split
    · exact ⟨_, rfl⟩
    · exact ⟨_, rfl⟩

/-- C10: the description and tag generators wrap the chat call in a
catch-all: they always return a value; when every chat attempt fails they
return their fixed Thai fallbacks; the tag generator also falls back when
the cleaned response is shorter than 3 characters, so any returned tag
string is the fallback or at least 3 characters; consequently the
orchestrator can only fail in its validation or image phases. -/
theorem C10_chat_failures_never_propagate :
    (∀ p u tags opts api, ∃ s, generateImageDescription p u tags opts api = Except.ok s) ∧
    (∀ p u tags opts api, (∀ n, ∃ m, api n = Except.error m) →
      generateImageDescription p u tags opts api = Except.ok (thaiDescFallback p)) ∧
    (∀ p d ex opts api, ∃ s, generateOutputTags p d ex opts api = Except.ok s) ∧
    (∀ p d ex opts api, (∀ n, ∃ m, api n = Except.error m) →
      generateOutputTags p d ex opts api = Except.ok thaiTagFallback) ∧
    (∀ p d ex opts api s, generateOutputTags p d ex opts api = Except.ok s →
      s = thaiTagFallback ∨ 3 ≤ s.length) ∧
    (∀ req oracle e, generateKramPattern req oracle = Except.error e →
      e.phase = GenPhase.validation ∨ e.phase = GenPhase.image_generation) := by
  refine ⟨generateImageDescription_total, ?_, generateOutputTags_total, ?_, ?_, ?_⟩
  · intro p u tags opts api h
    obtain ⟨e, he⟩ := chatHelper_all_error ⟨ChatRole.user, thaiDescPrompt p tags⟩
      ⟨jsOrStr opts.model "gpt-4-turbo", jsOrInt opts.maxTokens 500⟩ api h
    unfold generateImageDescription
    dsimp only
    rw [he]
  · intro p d ex opts api h
    obtain ⟨e, he⟩ := chatHelper_all_error
      ⟨ChatRole.user, thaiTagsPrompt p d
        (if joinWith ", " ex = "" then "" else "\n\nแท็กสไตล์ที่มีอยู่: " ++ joinWith ", " ex)⟩
      ⟨jsOrStr opts.model "gpt-4-turbo", jsOrInt opts.maxTokens 200⟩ api h
    unfold generateOutputTags
    dsimp only
    rw [he]
  · intro p d ex opts api s hs
    unfold generateOutputTags at hs
    dsimp only at hs
    cases hc : chatHelper
        ⟨ChatRole.user, thaiTagsPrompt p d
          (if joinWith ", " ex = "" then "" else "\n\nแท็กสไตล์ที่มีอยู่: " ++ joinWith ", " ex)⟩
        ⟨jsOrStr opts.model "gpt-4-turbo", jsOrInt opts.maxTokens 200⟩ api with
    | error e =>
      rw [hc] at hs
      simp only [Except.ok.injEq] at hs
      exact Or.inl hs.symm
    | ok content =>
      rw [hc] at hs
      dsimp only at hs
      split at hs
      · simp only [Except.ok.injEq] at hs
        exact Or.inl hs.symm
      · rename_i hcond
        rw [not_or] at hcond
        simp only [Except.ok.injEq] at hs
        subst hs
        right
        omega
  · intro req oracle e h
    unfold generateKramPattern at h
    dsimp only at h
    split at h
    · simp only [Except.error.injEq] at h
      subst h
      exact Or.inl rfl
    · cases himg : imageHelper
          (buildEnhancedPromptWithImages req.prompt
            ((req.tags.getD []).map fun t => ImageRefTag.mk t.name none (some t.image_url)))
          [] (styleOf (jsOrStr (req.dalle_options.bind DalleOptions.style) "vivid"))
          oracle.imageApi with
      | error m =>
        rw [himg] at h
        simp only [Except.error.injEq] at h
        subst h
        exact Or.inr rfl
      | ok ir =>
        rw [himg] at h
        dsimp only at h
        obtain ⟨sd, hsd⟩ := generateImageDescription_total req.prompt ir.image_url
          ((req.tags.getD []).map fun t => TagCtx.mk t.name t.description)
          ⟨some (jsOrStr (req.chat_options.bind ChatOptions.model) "gpt-4-turbo"),
            some (jsOrInt (req.chat_options.bind ChatOptions.max_tokens) 300)⟩
          oracle.descApi
        rw [hsd] at h
        dsimp only at h
        obtain ⟨st, hst⟩ := generateOutputTags_total req.prompt sd
          ((req.tags.getD []).map TagFull.name)
          ⟨some (jsOrStr (req.chat_options.bind ChatOptions.model) "gpt-4-turbo"), some 100⟩
          oracle.tagsApi
        rw [hst] at h
        cases h

/-- Witness for C10: with an always-failing chat oracle both helpers
return their fallbacks, and a run with an empty prompt fails in the
validation phase. -/
theorem C10_chat_failures_never_propagate_witness :
    generateImageDescription "a bird" "https://img.example/x.png" [] ⟨none, none⟩
        (fun _ => Except.error "rate_limit_exceeded") =
      Except.ok (thaiDescFallback "a bird") ∧
    generateOutputTags "a bird" "desc" [] ⟨none, none⟩
        (fun _ => Except.error "rate_limit_exceeded") =
      Except.ok thaiTagFallback := by
  constructor
  · exact C10_chat_failures_never_propagate.2.1 "a bird" "https://img.example/x.png" []
      ⟨none, none⟩ (fun _ => Except.error "rate_limit_exceeded")
      (fun _ => ⟨"rate_limit_exceeded", rfl⟩)
  · exact C10_chat_failures_never_propagate.2.2.2.1 "a bird" "desc" [] ⟨none, none⟩
      (fun _ => Except.error "rate_limit_exceeded")
      (fun _ => ⟨"rate_limit_exceeded", rfl⟩)

/-! ## Persistence behavior of the generation route (C1, C3, C5) -/

lemma runGeneration_spec (body : KramRouteRequest) (db : Db) (oracle : RouteOracle)
    (selectedTags : List TagFull) (fetched : Bool) (r : RouteResult)
    (hr : runGeneration body db oracle selectedTags fetched = r) :
    (r.ok = true → r.status = 201 ∧ ∃ hrow orow,
      r.db = ⟨db.tags, db.history ++ [hrow], db.outputs ++ [orow]⟩ ∧
      orow.history_id = hrow.id ∧ r.historyId = some hrow.id) ∧
    (r.ok = false → r.db.outputs = db.outputs ∧ r.db.tags = db.tags ∧
      (r.db.history = db.history ∨ (oracle.persist.outputOk = false ∧
        ∃ hrow, r.db.history = db.history ++ [hrow]))) := by
  unfold runGeneration at hr
  cases hg : generateKramPattern
      ⟨body.prompt, some selectedTags, body.dalle_options, body.chat_options⟩ oracle.gen with
  | error e =>
    rw [hg] at hr
    subst hr
    constructor
    · intro h; simp at h
    · intro _; exact ⟨rfl, rfl, Or.inl rfl⟩
  | ok kr =>
    rw [hg] at hr
    dsimp only at hr
    by_cases hh : oracle.persist.historyOk = false
    · rw [if_pos hh] at hr
      subst hr
      constructor
      · intro h; simp at h
      · intro _; exact ⟨rfl, rfl, Or.inl rfl⟩
    · rw [if_neg hh] at hr
      by_cases ho : oracle.persist.outputOk = false
      · rw [if_pos ho] at hr
        subst hr
        constructor
        · intro h; simp at h
        · intro _; exact ⟨rfl, rfl, Or.inr ⟨ho, _, rfl⟩⟩
      · rw [if_neg ho] at hr
        subst hr
        constructor
        · intro _; exact ⟨rfl, _, _, rfl, rfl, rfl⟩
        · intro h; simp at h

lemma postKramPattern_split (body : KramRouteRequest) (db : Db) (oracle : RouteOracle) :
    ((postKramPattern body db oracle).ok = false ∧ (postKramPattern body db oracle).db = db) ∨
    (∃ selectedTags fetched,
      postKramPattern body db oracle = runGeneration body db oracle selectedTags fetched) := by
  unfold postKramPattern
  by_cases hv : (validateKramRequest
      ⟨body.prompt, some [], body.dalle_options, body.chat_options⟩).valid = false
  · rw [if_pos hv]
    exact Or.inl ⟨rfl, rfl⟩
  · rw [if_neg hv]
    cases body.tag_ids with
    | none => exact Or.inr ⟨[], false, rfl⟩
    | some ids =>
      dsimp only
      by_cases h1 : ids.length > 0
      · rw [if_pos h1]
        by_cases h2 : (ids.filter fun i => !(isUuidShape i)).length > 0
        · rw [if_pos h2]
          exact Or.inl ⟨rfl, rfl⟩
        · rw [if_neg h2]
          by_cases h3 : (db.tags.filter fun t => ids.contains t.id).length ≠ ids.length
          · rw [if_pos h3]
            exact Or.inl ⟨rfl, rfl⟩
          · rw [if_neg h3]
            by_cases h4 : ((db.tags.filter fun t => ids.contains t.id).filter fun t =>
                t.image_url = "" ∨ jsTrim t.image_url = "").length > 0
            · rw [if_pos h4]
              exact Or.inl ⟨rfl, rfl⟩
            · rw [if_neg h4]
              exact Or.inr ⟨_, true, rfl⟩
      · rw [if_neg h1]
        exact Or.inr ⟨[], false, rfl⟩

/-- A fixed request body used by the concrete route runs. -/
def demoBody : KramRouteRequest := ⟨"a spiral indigo motif", none, none, none⟩

/-- The empty database. -/
def emptyDb : Db := ⟨[], [], []⟩

/-- External calls that all succeed. -/
def okGenOracle : GenOracle :=
  ⟨fun _ => Except.ok (some ⟨some "https://img.example/out.png", none⟩),
    fun _ => Except.ok (some "ลายผ้าครามเรขาคณิต"),
    fun _ => Except.ok (some "นก, คราม, ศิลปะ")⟩

/-- External calls whose image generation fails with a content-policy
error. -/
def policyFailGenOracle : GenOracle :=
  ⟨fun _ => Except.error "content_policy_violation",
    fun _ => Except.ok (some "ลายผ้าครามเรขาคณิต"),
    fun _ => Except.ok (some "นก, คราม, ศิลปะ")⟩

/-- A run where both database writes succeed. -/
def okRoute : RouteOracle := ⟨okGenOracle, ⟨true, true, "h1", "o1"⟩⟩

/-- A run where the History insert succeeds but the Output insert fails. -/
def outputFailRoute : RouteOracle := ⟨okGenOracle, ⟨true, false, "h1", "o1"⟩⟩

/-- A run whose image phase fails. -/
def policyFailRoute : RouteOracle := ⟨policyFailGenOracle, ⟨true, true, "h1", "o1"⟩⟩

set_option maxRecDepth 400000 in
/-- C1 counterexample: a request that fails in the persistence phase
(the `outputGenerate.create` write fails after `history.create`
succeeded) responds with status 500 yet leaves one new History row in the
database, because the two writes are not wrapped in a transaction.  The
claim asserts the database is unchanged after every failed request. -/
theorem C1_counterexample :
    (postKramPattern demoBody emptyDb outputFailRoute).ok = false ∧
    (postKramPattern demoBody emptyDb outputFailRoute).status = 500 ∧
    (postKramPattern demoBody emptyDb outputFailRoute).db.history =
      [⟨"h1", "a spiral indigo motif", none⟩] ∧
    emptyDb.history = [] := by
  exact ⟨rfl, rfl, rfl, rfl⟩

/-- C1 amended: a failed generation request never writes OutputGenerate
rows and never touches the tags table; the History table is unchanged for
every failure before or at the `history.create` write (validation, tag
lookup, image, description and tag generation phases, and a failing
History insert), and only a failure of the `outputGenerate.create` write
after a successful `history.create` leaves exactly one orphan History
row. -/
theorem C1_no_partial_persistence (body : KramRouteRequest) (db : Db) (oracle : RouteOracle)
    (hfail : (postKramPattern body db oracle).ok = false) :
    (postKramPattern body db oracle).db.outputs = db.outputs ∧
    (postKramPattern body db oracle).db.tags = db.tags ∧
    ((postKramPattern body db oracle).db.history = db.history ∨
      (oracle.persist.outputOk = false ∧ ∃ hrow,
        (postKramPattern body db oracle).db.history = db.history ++ [hrow])) := by
  rcases postKramPattern_split body db oracle with ⟨_, hdb⟩ | ⟨tags, fetched, heq⟩
  · rw [hdb]
    exact ⟨rfl, rfl, Or.inl rfl⟩
  · rw [heq] at hfail ⊢
    exact (runGeneration_spec body db oracle tags fetched _ rfl).2 hfail

set_option maxRecDepth 400000 in
/-- Witness for C1 (amended): a run whose image generation fails with a
content-policy error leaves the database exactly as it was. -/
theorem C1_no_partial_persistence_witness :
    (postKramPattern demoBody emptyDb policyFailRoute).ok = false ∧
    (postKramPattern demoBody emptyDb policyFailRoute).db.outputs = emptyDb.outputs ∧
    ((postKramPattern demoBody emptyDb policyFailRoute).db.history = emptyDb.history ∨
      (policyFailRoute.persist.outputOk = false ∧ ∃ hrow,
        (postKramPattern demoBody emptyDb policyFailRoute).db.history =
          emptyDb.history ++ [hrow])) := by
  have h : (postKramPattern demoBody emptyDb policyFailRoute).ok = false := rfl
  exact ⟨h, (C1_no_partial_persistence demoBody emptyDb policyFailRoute h).1,
    (C1_no_partial_persistence demoBody emptyDb policyFailRoute h).2.2⟩

/-- C3: every successful generation request appends exactly one History
row and exactly one OutputGenerate row referencing it (`history_id` equal
to the new History id), and the response `history_id` is that id. -/
theorem C3_success_persists_one_pair (body : KramRouteRequest) (db : Db)
    (oracle : RouteOracle) (hok : (postKramPattern body db oracle).ok = true) :
    (postKramPattern body db oracle).status = 201 ∧
    ∃ hrow orow,
      (postKramPattern body db oracle).db =
        ⟨db.tags, db.history ++ [hrow], db.outputs ++ [orow]⟩ ∧
      orow.history_id = hrow.id ∧
      (postKramPattern body db oracle).historyId = some hrow.id := by
  rcases postKramPattern_split body db oracle with ⟨hf, _⟩ | ⟨tags, fetched, heq⟩
  · rw [hok] at hf
    cases hf
  · rw [heq] at hok ⊢
    exact (runGeneration_spec body db oracle tags fetched _ rfl).1 hok

set_option maxRecDepth 400000 in
/-- Witness for C3: a fully successful concrete run returns 201 with the
new History id and appends the matching row pair. -/
theorem C3_success_persists_one_pair_witness :
    (postKramPattern demoBody emptyDb okRoute).ok = true ∧
    ((postKramPattern demoBody emptyDb okRoute).status = 201 ∧
      ∃ hrow orow,
        (postKramPattern demoBody emptyDb okRoute).db =
          ⟨emptyDb.tags, emptyDb.history ++ [hrow], emptyDb.outputs ++ [orow]⟩ ∧
        orow.history_id = hrow.id ∧
        (postKramPattern demoBody emptyDb okRoute).historyId = some hrow.id) := by
  have h : (postKramPattern demoBody emptyDb okRoute).ok = true := rfl
  exact ⟨h, C3_success_persists_one_pair demoBody emptyDb okRoute h⟩

/-- C5: a request whose tag id list contains a string that does not match
the UUID shape is answered with status 400, the tag `findMany` query is
never executed, and the database is untouched. -/
theorem C5_invalid_tag_ids_no_lookup (body : KramRouteRequest) (db : Db)
    (oracle : RouteOracle) (ids : List String) (hids : body.tag_ids = some ids)
    (hbad : ∃ i ∈ ids, isUuidShape i = false) :
    postKramPattern body db oracle = ⟨400, false, none, db, false⟩ := by
  obtain ⟨i, hi, hbadi⟩ := hbad
  unfold postKramPattern
  by_cases hv : (validateKramRequest
      ⟨body.prompt, some [], body.dalle_options, body.chat_options⟩).valid = false
  · rw [if_pos hv]
  · rw [if_neg hv, hids]
    dsimp only
    have hlen : ids.length > 0 := List.length_pos.mpr (List.ne_nil_of_mem hi)
    rw [if_pos hlen]
    have hinv : (ids.filter fun i => !(isUuidShape i)).length > 0 := by
      apply List.length_pos.mpr
      apply List.ne_nil_of_mem
      exact List.mem_filter.mpr ⟨hi, by simp [hbadi]⟩
    rw [if_pos hinv]

/-- Witness for C5: the id list `["not-a-uuid"]` is rejected with 400 and
no lookup. -/
theorem C5_invalid_tag_ids_no_lookup_witness :
    postKramPattern ⟨"a spiral indigo motif", some ["not-a-uuid"], none, none⟩
        ⟨[⟨"t1", "Lai", "motif", "https://img.example/t.png"⟩], [], []⟩
        ⟨⟨fun _ => Except.ok (some ⟨some "https://img.example/out.png", none⟩),
          fun _ => Except.ok (some "ลาย"),
          fun _ => Except.ok (some "นก, คราม")⟩,
          ⟨true, true, "h1", "o1"⟩⟩ =
      ⟨400, false, none, ⟨[⟨"t1", "Lai", "motif", "https://img.example/t.png"⟩], [], []⟩, false⟩ :=
  C5_invalid_tag_ids_no_lookup _ _ _ ["not-a-uuid"] rfl
    ⟨"not-a-uuid", by simp, by decide⟩

/-- C6: in the `part_004` gallery revision, a non-numeric `page` or
`limit` parameter makes the effective value `NaN` (modelled as `none`):
`Math.max(1, parseInt('abc'))` is `NaN`, not an integer ≥ 1 as the claim
requires.  The enhanced revision in `route.ts` adds the `|| 1` / `|| 10`
fallbacks and satisfies the claim: its effective page is always ≥ 1 and
its effective limit always lies in `[1, 100]`. -/
theorem C6_page_limit_parsing :
    effectivePage_p4 (some "abc") = none ∧
    effectiveLimit_p4 (some "abc") = none ∧
    effectivePage_v2 (some "abc") = 1 ∧
    effectiveLimit_v2 (some "abc") = 10 ∧
    effectivePage_v2 none = 1 ∧
    effectiveLimit_v2 none = 10 ∧
    (∀ p : Option String, 1 ≤ effectivePage_v2 p) ∧
    (∀ l : Option String, 1 ≤ effectiveLimit_v2 l ∧ effectiveLimit_v2 l ≤ 100) := by
  refine ⟨rfl, rfl, rfl, rfl, rfl, rfl, ?_, ?_⟩
  · intro p
    exact le_max_left 1 _
  · intro l
    constructor
    · exact le_min (by norm_num) (le_max_left 1 _)
    · exact min_le_left 100 _

/-- C7: for every row list and every effective page and limit (limit ≥ 1),
the returned data page holds at most `limit` items, `totalItems` is the
row count, `totalPages` is the ceiling of `totalItems / limit`, `hasNext`
holds exactly when `page < totalPages`, and `hasPrev` exactly when
`page > 1`. -/
theorem C7_pagination_consistent {α : Type} (rows : List α) (page limit : Nat)
    (hl : 1 ≤ limit) :
    (galleryPageData rows page limit).length ≤ limit ∧
    (galleryPagination rows.length page limit).totalItems = rows.length ∧
    (galleryPagination rows.length page limit).totalPages = rows.length ⌈/⌉ limit ∧
    rows.length ≤ (galleryPagination rows.length page limit).totalPages * limit ∧
    (galleryPagination rows.length page limit).totalPages * limit < rows.length + limit ∧
    ((galleryPagination rows.length page limit).hasNext = true ↔
      page < (galleryPagination rows.length page limit).totalPages) ∧
    ((galleryPagination rows.length page limit).hasPrev = true ↔ 1 < page) := by
  refine ⟨?_, rfl, ?_, ?_, ?_, ?_, ?_⟩
  · exact le_trans (List.length_take_le _ _) le_rfl
  · exact (Nat.ceilDiv_eq_add_pred_div _ _).symm
  · show rows.length ≤ (rows.length + limit - 1) / limit * limit
    have hd := Nat.div_add_mod' (rows.length + limit - 1) limit
    have hm : (rows.length + limit - 1) % limit < limit := Nat.mod_lt _ (by omega)
    omega
  · show (rows.length + limit - 1) / limit * limit < rows.length + limit
    have hd := Nat.div_add_mod' (rows.length + limit - 1) limit
    have hm : (rows.length + limit - 1) % limit < limit := Nat.mod_lt _ (by omega)
    omega
  · simp [galleryPagination]
  · simp [galleryPagination]

/-- Witness for C7 at the documented example: 25 items, page 2, limit 10
give 10 items, 3 total pages, and both `hasNext` and `hasPrev`. -/
theorem C7_pagination_consistent_witness :
    (galleryPagination 25 2 10).totalPages = 3 ∧
    (galleryPagination 25 2 10).hasNext = true ∧
    (galleryPagination 25 2 10).hasPrev = true ∧
    (galleryPageData (List.range 25) 2 10).length ≤ 10 ∧
    ((galleryPagination (List.range 25).length 2 10).hasNext = true ↔
      2 < (galleryPagination (List.range 25).length 2 10).totalPages) := by
  refine ⟨by decide, by decide, by decide, ?_, ?_⟩
  · exact (C7_pagination_consistent (List.range 25) 2 10 (by decide)).1
  · exact (C7_pagination_consistent (List.range 25) 2 10 (by decide)).2.2.2.2.2.1

/-- The case-insensitive name-uniqueness invariant on the tags table. -/
def tagNamesUniqueCI (db : List TagFull) : Prop :=
  List.Pairwise (fun a b : TagFull => asciiLower a.name ≠ asciiLower b.name) db

instance (db : List TagFull) : Decidable (tagNamesUniqueCI db) := by
  unfold tagNamesUniqueCI
  infer_instance

/-- C8 counterexample: with the tag `foo` stored, a request named
`" foo"` (leading space) passes the case-insensitive duplicate check, but
the row is stored with the trimmed name `foo`: the request succeeds with
201 and the table now holds two tags whose names are case-insensitively
equal, so uniqueness is not enforced at write time for every request. -/
theorem C8_counterexample :
    (postTags [⟨"t1", "foo", "a stored tag", "https://img.example/t.png"⟩]
      ⟨some " foo", some "https://img.example/u.png", some "another"⟩ "t2").status = 201 ∧
    ¬ tagNamesUniqueCI
      (postTags [⟨"t1", "foo", "a stored tag", "https://img.example/t.png"⟩]
        ⟨some " foo", some "https://img.example/u.png", some "another"⟩ "t2").tags := by
  decide

/-- C8 amended: a request with any missing (falsy) field is answered 400
and creates no row; a request whose name equals a stored name
case-insensitively is answered 409 and creates no row; and for requests
whose name carries no surrounding whitespace (so the duplicate check and
the trimmed stored value agree), case-insensitive uniqueness of stored
names is preserved by the write.  (A name that differs from a stored one
only by surrounding whitespace evades the duplicate check and breaks the
uniqueness invariant, as the counterexample shows.) -/
theorem C8_tag_creation_duplicates (db : List TagFull) (body : CreateTagBody)
    (newId : String) :
    ((strFalsy body.name || strFalsy body.image_url || strFalsy body.description) = true →
      postTags db body newId = ⟨400, db⟩) ∧
    ((strFalsy body.name || strFalsy body.image_url || strFalsy body.description) = false →
      (∃ t ∈ db, lowerEq t.name (body.name.getD "") = true) →
      postTags db body newId = ⟨409, db⟩) ∧
    (jsTrim (body.name.getD "") = body.name.getD "" →
      tagNamesUniqueCI db → tagNamesUniqueCI (postTags db body newId).tags) := by
  refine ⟨?_, ?_, ?_⟩
  · intro h
    unfold postTags
    rw [if_pos h]
  · intro h hdup
    obtain ⟨t, ht, hlt⟩ := hdup
    unfold postTags
    rw [if_neg (by simp [h])]
    rw [if_pos (List.any_eq_true.mpr ⟨t, ht, hlt⟩)]
  · intro htrim huniq
    unfold postTags
    by_cases hf : (strFalsy body.name || strFalsy body.image_url ||
        strFalsy body.description) = true
    · rw [if_pos hf]
      exact huniq
    · rw [if_neg hf]
      by_cases hd : db.any fun t => lowerEq t.name (body.name.getD "")
      · rw [if_pos hd]
        exact huniq
      · rw [if_neg hd]
        unfold tagNamesUniqueCI
        rw [List.pairwise_append]
        refine ⟨huniq, List.pairwise_singleton _ _, ?_⟩
        intro a ha b hb
        simp only [List.mem_singleton] at hb
        subst hb
        have hfalse : (db.any fun t => lowerEq t.name (body.name.getD "")) = false := by
          simpa using hd
        have hne := List.any_eq_false.mp hfalse a ha
        simp only [lowerEq, decide_eq_true_eq] at hne
        show asciiLower a.name ≠ asciiLower (jsTrim (body.name.getD ""))
        rw [htrim]
        exact fun hcontra => hne (by simpa [lowerEq] using hcontra)

/-- Witness for C8: a duplicate name in different case is rejected with
409, a missing field with 400, and a fresh trimmed name keeps the
uniqueness invariant. -/
theorem C8_tag_creation_duplicates_witness :
    postTags [⟨"t1", "foo", "a stored tag", "https://img.example/t.png"⟩]
        ⟨some "FOO", some "https://img.example/u.png", some "d"⟩ "t2" =
      ⟨409, [⟨"t1", "foo", "a stored tag", "https://img.example/t.png"⟩]⟩ ∧
    postTags [⟨"t1", "foo", "a stored tag", "https://img.example/t.png"⟩]
        ⟨none, some "https://img.example/u.png", some "d"⟩ "t2" =
      ⟨400, [⟨"t1", "foo", "a stored tag", "https://img.example/t.png"⟩]⟩ ∧
    tagNamesUniqueCI
      (postTags [⟨"t1", "foo", "a stored tag", "https://img.example/t.png"⟩]
        ⟨some "bar", some "https://img.example/u.png", some "d"⟩ "t2").tags := by
  refine ⟨?_, ?_, ?_⟩
  · exact (C8_tag_creation_duplicates [⟨"t1", "foo", "a stored tag", "https://img.example/t.png"⟩]
      ⟨some "FOO", some "https://img.example/u.png", some "d"⟩ "t2").2.1 (by decide)
      ⟨⟨"t1", "foo", "a stored tag", "https://img.example/t.png"⟩, by simp, by decide⟩
  · exact (C8_tag_creation_duplicates [⟨"t1", "foo", "a stored tag", "https://img.example/t.png"⟩]
      ⟨none, some "https://img.example/u.png", some "d"⟩ "t2").1 (by decide)
  · exact (C8_tag_creation_duplicates [⟨"t1", "foo", "a stored tag", "https://img.example/t.png"⟩]
      ⟨some "bar", some "https://img.example/u.png", some "d"⟩ "t2").2.2 (by decide)
      (by decide)

end KramSpec
